import Mathlib

/-!
Shallow embedding of `src/AI_AGENT.py` (class `AIAgent`), the mission control
loop of the AI-Cyber-Agent repository.  Python strings are modelled as Lean
`String`s (`len` = `String.length`, both count unicode code points), decoded
JSON values as the `Json` inductive below, and the two external effectful
collaborators — the network backend inside `call_llm` and the subprocess spawn
inside `execute_command` — as explicit function parameters.  Everything with
decision logic (retry/backoff, fence stripping, parse fallback, the spill
threshold, the loop bookkeeping, the report gate and evidence selection) is
translated definition-by-definition from the source.
-/

namespace AIAgent

/-- A decoded JSON value, the result type of Python's `json.loads` as used by
`parse_llm_response`.  Numbers are modelled as integers (no reply flow in the
program depends on float payloads). -/
inductive Json where
  | null
  | bool (b : Bool)
  | num (n : Int)
  | str (s : String)
  | arr (elems : List Json)
  | obj (fields : List (String × Json))

/-- Equality of a decoded JSON value with a string literal is decidable; this
is the only shape of JSON comparison the source performs (the terminal
sentinel membership test and the report gate). -/
instance (c : Json) (s : String) : Decidable (c = Json.str s) :=
  match c with
  | Json.str t =>
    if h : t = s then Decidable.isTrue (by rw [h]) else Decidable.isFalse (by simp [h])
  | Json.null => Decidable.isFalse (by simp)
  | Json.bool _ => Decidable.isFalse (by simp)
  | Json.num _ => Decidable.isFalse (by simp)
  | Json.arr _ => Decidable.isFalse (by simp)
  | Json.obj _ => Decidable.isFalse (by simp)

/-- Escaping of one character inside a JSON string literal, as `json.dumps`
performs it for the ASCII payloads this program serializes. -/
def jsonEscapeChar (c : Char) : String :=
  if c = '"' then "\\\""
  else if c = '\\' then "\\\\"
  else if c = '\n' then "\\n"
  else if c = '\t' then "\\t"
  else if c = '\r' then "\\r"
  else String.singleton c

/-- Escaping of a JSON string body, character by character. -/
def jsonEscape (s : String) : String :=
  String.join (s.data.map jsonEscapeChar)

mutual

/-- Python's `json.dumps` with its default separators `", "` and `": "`, as
used at line 219 of the source to re-serialize the parsed action into the
assistant turn. -/
def dumps : Json → String
  | Json.null => "null"
  | Json.bool true => "true"
  | Json.bool false => "false"
  | Json.num n => toString n
  | Json.str s => "\"" ++ jsonEscape s ++ "\""
  | Json.arr elems => "[" ++ dumpsElems elems ++ "]"
  | Json.obj fields => "\x7b" ++ dumpsFields fields ++ "\x7d"

/-- Serialization of a JSON array body, elements joined by `", "`. -/
def dumpsElems : List Json → String
  | [] => ""
  | [e] => dumps e
  | e :: e2 :: rest => dumps e ++ ", " ++ dumpsElems (e2 :: rest)

/-- Serialization of a JSON object body, `"key": value` pairs joined by
`", "`. -/
def dumpsFields : List (String × Json) → String
  | [] => ""
  | [kv] => "\"" ++ jsonEscape kv.1 ++ "\": " ++ dumps kv.2
  | kv :: kv2 :: rest =>
      "\"" ++ jsonEscape kv.1 ++ "\": " ++ dumps kv.2 ++ ", " ++ dumpsFields (kv2 :: rest)

end

/-- Python's `str()` rendering as spliced into the source's f-strings.  It is
exact for the scalar values (strings splice verbatim, `True`/`False`/`None`
for booleans and null, decimal for integers); every value the mission flows
splice here is a string, so the container rendering reuses the JSON
serialization. -/
def pyStrOf : Json → String
  | Json.str s => s
  | Json.num n => toString n
  | Json.bool true => "True"
  | Json.bool false => "False"
  | Json.null => "None"
  | j => dumps j

/-- Last-binding lookup in a decoded JSON object, matching the Python dict
that `json.loads` builds (later duplicate keys overwrite earlier ones). -/
def objLookup (fields : List (String × Json)) (key : String) : Option Json :=
  fields.foldl (fun acc kv => if kv.1 = key then some kv.2 else acc) none

/-- Python's `dict.get(key, default)` on a decoded JSON object. -/
def pyGet (fields : List (String × Json)) (key : String) (dflt : Json) : Json :=
  (objLookup fields key).getD dflt

/-- The fixed fallback action of `parse_llm_response` (source lines 169-170):
returned whenever `json.loads` fails on the model's reply. -/
def FALLBACK_ACTION : Json :=
  Json.obj
    [("thought", Json.str "The AI's response was not valid JSON. I will try again, ensuring my output is perfectly formatted."),
     ("command", Json.str "echo 'AI response has invalid format.'")]

/-- `AIAgent.parse_llm_response` (source lines 164-170).  The outcome of the
external `json.loads` call is passed in explicitly: `some v` when the raw
reply text decodes to the JSON value `v`, `none` when decoding raises
`json.JSONDecodeError` (the only exception `json.loads` raises on a string
argument, and one of the two the `except` clause catches).  On success the
decoded value is returned unchanged; on failure the fixed fallback action is
returned, so the function never propagates an exception. -/
def parse_llm_response (decoded : Option Json) : Json :=
  match decoded with
  | some v => v
  | none => FALLBACK_ACTION

/-- The terminal sentinels: membership of the command in the Python list
`["FINISH_SUCCESS", "FINISH_FAILURE"]` checked at source line 195. -/
def IsTerminalCmd (c : Json) : Prop :=
  c = Json.str "FINISH_SUCCESS" ∨ c = Json.str "FINISH_FAILURE"

instance (c : Json) : Decidable (IsTerminalCmd c) := by
  unfold IsTerminalCmd
  infer_instance

/-- Whether the first character list is a prefix of the second. -/
def charListPrefix : List Char → List Char → Bool
  | [], _ => true
  | _ :: _, [] => false
  | c :: cs, d :: ds => c == d && charListPrefix cs ds

/-- Whether the first character list occurs contiguously inside the second. -/
def charListInfix (needle : List Char) : List Char → Bool
  | [] => charListPrefix needle []
  | d :: ds => charListPrefix needle (d :: ds) || charListInfix needle ds

/-- Python's substring membership test `needle in hay` (source line 141),
expressed on the underlying character lists. -/
def strContains (hay needle : String) : Bool :=
  charListInfix needle.data hay.data

/-- The whitespace class of Python's `str.strip()`. -/
def pySpaceChar (c : Char) : Bool :=
  c == ' ' || c == '\t' || c == '\n' || c == '\r' || c == '\x0b' || c == '\x0c'

/-- Python's `str.strip()`: whitespace removed from both ends. -/
def pyStrip (s : String) : String :=
  String.mk (((s.data.dropWhile pySpaceChar).reverse.dropWhile pySpaceChar).reverse)

/-- Python's `str.startswith(pre)`. -/
def pyStartsWith (s pre : String) : Bool :=
  charListPrefix pre.data s.data

/-- Python's `str.endswith(suf)`. -/
def pyEndsWith (s suf : String) : Bool :=
  charListPrefix suf.data.reverse s.data.reverse

/-- Worker for `pySplit`: scans the haystack left to right, cutting at each
non-overlapping occurrence of the (non-empty) separator; `acc` holds the
current segment reversed, `fuel` bounds the scan by the haystack length. -/
def pySplitGo (sep : List Char) : Nat → List Char → List Char → List (List Char)
  | _, [], acc => [acc.reverse]
  | 0, hay, acc => [acc.reverse ++ hay]
  | fuel + 1, c :: rest, acc =>
    if charListPrefix sep (c :: rest) then
      acc.reverse :: pySplitGo sep fuel (rest.drop (sep.length - 1)) []
    else
      pySplitGo sep fuel rest (c :: acc)

/-- Python's `str.split(sep)` for a non-empty separator `sep`. -/
def pySplit (s sep : String) : List String :=
  (pySplitGo sep.data s.data.length s.data []).map String.mk

/-- Python's slice `s[a:-b]` for literal non-negative `a`, `b` (empty when the
bounds cross). -/
def pySlice (s : String) (a b : Nat) : String :=
  String.mk ((s.data.drop a).take (s.data.length - a - b))

/-- The extraction branch of the fence normalization (source line 142):
`content.split("```json")[1].split("```")[0].strip()` — the text between the
first "```json" opener and the next plain "```" fence, stripped.  The `[1]`
index is guarded by the membership test, so the list default is never used
there. -/
def jsonFenceExtract (content : String) : String :=
  pyStrip ((pySplit ((pySplit content "```json").getD 1 "") "```").getD 0 "")

/-- The markdown-wrapper removal applied to every successful reply inside
`call_llm` (source lines 140-145). -/
def stripFences (content : String) : String :=
  if strContains content "```json" then jsonFenceExtract content
  else if pyStartsWith (pyStrip content) "```" && pyEndsWith (pyStrip content) "```" then
    pyStrip (pySlice (pyStrip content) 3 3)
  else content

/-- One attempt's outcome at the network backend, the external collaborator
inside `call_llm`: a successful reply text, a transient error
(`requests.exceptions.RequestException`, including non-400 `HTTPError`), or a
client-side 400 `HTTPError`. -/
inductive BackendResult where
  | ok (content : String)
  | transient
  | badRequest
deriving DecidableEq

/-- `max_retries` (source line 129). -/
def max_retries : Nat := 3

/-- `backoff_factor` (source line 130). -/
def backoff_factor : Nat := 5

/-- The non-retryable fallback payload returned on a 400 response (source
line 150). -/
def BAD_REQUEST_FALLBACK : String :=
  "\x7b\"thought\": \"The previous API request failed with a 400 error, likely because the context was too large. I need to proceed with a different approach, perhaps by summarizing previous findings or trying a less verbose command.\", \"command\": \"echo 'API request failed, retrying with a different strategy.'\"\x7d"

/-- The fallback payload returned once the retries are exhausted (source
line 161). -/
def CRITICAL_FAILURE_FALLBACK : String :=
  "\x7b\"thought\": \"Critical API connection error. Check internet/DNS.\", \"command\": \"FINISH_FAILURE\"\x7d"

/-- The fallback payload after the `for` loop (source line 162); dead code in
the source, since every loop iteration returns. -/
def UNEXPECTED_FAILURE_FALLBACK : String :=
  "\x7b\"thought\": \"Unexpected failure in API retry loop.\", \"command\": \"FINISH_FAILURE\"\x7d"

/-- What one `call_llm` invocation did: the string it returned, the total
seconds spent in `time.sleep` back-off waits, and how many backend attempts
it consumed. -/
structure LlmOutcome where
  content : String
  totalWait : Nat
  attemptsUsed : Nat
deriving DecidableEq

/-- The retry loop of `AIAgent.call_llm` (source lines 132-162), recursing on
the number of remaining attempts (`remaining = max_retries - attempt`).  A
successful attempt returns the fence-normalized reply; a 400 error returns
`BAD_REQUEST_FALLBACK` immediately; a transient error either sleeps
`backoff_factor * (attempt + 1)` seconds and retries (when
`attempt < max_retries - 1`, i.e. `remaining > 1`) or returns
`CRITICAL_FAILURE_FALLBACK` on the last attempt.  The fuel-0 case is the
unreachable `return` after the loop. -/
def call_llm_go (backend : Nat → BackendResult) : Nat → Nat → Nat → LlmOutcome
  | 0, attempt, waited => ⟨UNEXPECTED_FAILURE_FALLBACK, waited, attempt⟩
  | remaining + 1, attempt, waited =>
    match backend attempt with
    | BackendResult.ok c => ⟨stripFences c, waited, attempt + 1⟩
    | BackendResult.badRequest => ⟨BAD_REQUEST_FALLBACK, waited, attempt + 1⟩
    | BackendResult.transient =>
      if remaining = 0 then ⟨CRITICAL_FAILURE_FALLBACK, waited, attempt + 1⟩
      else call_llm_go backend remaining (attempt + 1) (waited + backoff_factor * (attempt + 1))

/-- `AIAgent.call_llm` (source lines 128-162), with the network backend
abstracted as the per-attempt outcome function `backend`. -/
def call_llm (backend : Nat → BackendResult) : LlmOutcome :=
  call_llm_go backend max_retries 0 0

/-- `MAX_OUTPUT_LENGTH` (source line 48), the spill threshold in characters. -/
def MAX_OUTPUT_LENGTH : Nat := 30000

/-- Python's truthiness test `if not command` (source line 93) on a decoded
JSON value. -/
def jTruthy : Json → Bool
  | Json.null => false
  | Json.bool b => b
  | Json.num n => n != 0
  | Json.str s => s != ""
  | Json.arr elems => !elems.isEmpty
  | Json.obj fields => !fields.isEmpty

/-- `AIAgent.execute_command` (source lines 92-109).  An empty (falsy) command
returns the fixed error string without spawning anything; otherwise the
command goes to the shell, modelled by the external `runner`, which yields the
concatenated stdout/stderr text — `subprocess` timeouts and spawn failures are
already converted to textual error messages inside the source's `try` block,
so `runner` is total. -/
def execute_command (runner : Json → String) (command : Json) : String :=
  if jTruthy command then runner command else "Error: No command to execute."

/-- One role-tagged conversation message, an element of the `messages` list
built in `run_mission`. -/
structure Msg where
  role : String
  content : String
deriving DecidableEq

/-- One entry of `self.history`: the dict literal of source line 192.  The
`thought` and `command` fields hold whatever the decoded action supplied;
`result` and `result_summary` start out as `""`. -/
structure StepRecord where
  step : Nat
  thought : Json
  command : Json
  result : String
  result_summary : String

/-- What the model turn of one loop iteration produced: the raw reply text of
`call_llm` and the outcome of `json.loads` on it (`none` when decoding
fails). -/
structure LoopInput where
  raw : String
  decoded : Option Json

/-- The observable effects of one non-final pass through the loop body: the
history record appended, the conversation messages after the iteration, the
spill file written (name and contents), and whether a terminal sentinel ended
the mission. -/
structure StepOutcome where
  record : StepRecord
  msgs : List Msg
  spill : Option (String × String)
  terminal : Bool

/-- The spill file name `f"output_step_{step}.log"` (source line 204). -/
def spillFilename (step : Nat) : String :=
  "output_step_" ++ toString step ++ ".log"

/-- The user-turn note substituted for an oversized result (source lines
210-213; the source writes it as adjacent string literals, concatenated). -/
def spillFeedback (filename : String) : String :=
  "The command output was too large to display directly. It has been saved to the file '" ++ filename ++ "'.\nYou MUST analyze this file using file-reading commands (like 'head', 'tail', 'grep', 'cat') to find the relevant information and decide your next step."

/-- The user-turn message carrying an inline result (source line 217). -/
def inlineFeedback (result : String) : String :=
  "The result of your last command was:\n---\n" ++ result ++ "\n---\nBased on this full result, what is your next step?"

/-- The `result_summary` pointer text `f"Output too large, saved to {filename}"`
(source line 214). -/
def spillSummary (filename : String) : String :=
  "Output too large, saved to " ++ filename

/-- The command the loop body reads off a model turn at source line 189
(`action.get("command", "")`): `none` when the parsed reply is not an object,
in which case the `.get` attribute access raises in Python. -/
def actionCommand (inp : LoopInput) : Option Json :=
  match parse_llm_response inp.decoded with
  | Json.obj fields => some (pyGet fields "command" (Json.str ""))
  | _ => none

/-- The body of the `while True` loop of `run_mission` (source lines 185-222)
for one iteration: parse the reply, read `thought`/`command` with their
defaults, append the step record; terminal sentinels end the mission without
execution, anything else is executed, spilled to a file if the result exceeds
`MAX_OUTPUT_LENGTH`, and followed by exactly two appended messages — the
re-serialized action as an assistant turn and the feedback as a user turn.
`none` models the `AttributeError` Python raises at the `.get` calls when the
reply decodes to a non-object (uncaught in `run_mission`). -/
def missionStep (runner : Json → String) (stepN : Nat) (msgs : List Msg)
    (inp : LoopInput) : Option StepOutcome :=
  match parse_llm_response inp.decoded with
  | Json.obj fields =>
    let thought := pyGet fields "thought" (Json.str "No thought recorded.")
    let command := pyGet fields "command" (Json.str "")
    if command = Json.str "FINISH_SUCCESS" ∨ command = Json.str "FINISH_FAILURE" then
      some ⟨⟨stepN, thought, command, "", ""⟩, msgs, none, true⟩
    else
      let result := execute_command runner command
      let assistantTurn : Msg := ⟨"assistant", dumps (Json.obj fields)⟩
      if result.length > MAX_OUTPUT_LENGTH then
        let filename := spillFilename stepN
        some ⟨⟨stepN, thought, command, result, spillSummary filename⟩,
              msgs ++ [assistantTurn, ⟨"user", spillFeedback filename⟩],
              some (filename, result), false⟩
      else
        some ⟨⟨stepN, thought, command, result, ""⟩,
              msgs ++ [assistantTurn, ⟨"user", inlineFeedback result⟩],
              none, false⟩
  | _ => none

/-- The `while True` loop of `run_mission` (source lines 181-222), driven by
the finite list of model turns `inputs`; the source's in-place
`self.history.append` accumulation is rendered as the returned record list.
The loop stops at the first terminal action; if `inputs` runs out first the
records so far are returned (the Python loop would instead keep querying the
model, so theorems about full missions supply a terminal final input). -/
def runLoop (runner : Json → String) : Nat → List Msg → List LoopInput →
    Option (List StepRecord × List Msg)
  | _, msgs, [] => some ([], msgs)
  | stepN, msgs, inp :: rest =>
    match missionStep runner stepN msgs inp with
    | none => none
    | some out =>
      if out.terminal then some ([out.record], out.msgs)
      else
        match runLoop runner (stepN + 1) out.msgs rest with
        | none => none
        | some (hist, finalMsgs) => some (out.record :: hist, finalMsgs)

/-- The system persona prompt returned by `create_system_prompt` (source
lines 306-320): the triple-quoted literal, with its leading newline and the
eight-space indentation of every line; its text never influences the control
flow. -/
def SYSTEM_PROMPT : String :=
  "\n        You are 'Cortex', an autonomous cybersecurity agent.\n\n        CRITICAL RULES:\n        1. You are operating with root privileges (superuser). You will receive the full, raw output of all commands.\n        2. NON-INTERACTIVE EXECUTION: All commands you issue MUST be non-interactive and designed to terminate on their own without user input. You MUST NOT use commands that start an interactive session (e.g., `nc`, `telnet` without piping input) or run indefinitely (e.g., `ping host.com`). Always use finite parameters, for example: `ping -c 4 host.com`.\n        3. You are using Kali Linux, so feel free to use any Kali Linux tool to achieve your goal easier and faster.\n        4. INSTALLATION ABILITY: If a command fails with 'command not found', install the missing tool using `apt update && apt install -y <package_name>`.\n        5. Think step-by-step, analyzing the full result to inform your next action.\n        6. Your response MUST be a valid JSON with the keys \"thought\" and \"command\".\n        7. Use \"FINISH_SUCCESS\" or \"FINISH_FAILURE\" to end the mission.\n        8. HANDLING LARGE OUTPUTS: If you are told that a command's output was too large and has been saved to a file (e.g., 'output_step_X.log'), you MUST use file-reading commands (`cat`, `less`, `grep`, `head`, `tail`) to inspect the file's contents to determine your next action. Do not ignore the file.\n        "

/-- The two seed messages of the conversation (source lines 176-178). -/
def initialMessages (target objective : String) : List Msg :=
  [⟨"system", SYSTEM_PROMPT⟩,
   ⟨"user", "The target is '" ++ target ++ "' and the objective is '" ++ objective ++ "'. Please begin."⟩]

/-- `AIAgent.run_mission` (source lines 172-224) up to the final
`generate_report` call: seed the context, then loop from step 1. -/
def run_mission (runner : Json → String) (target objective : String)
    (inputs : List LoopInput) : Option (List StepRecord × List Msg) :=
  runLoop runner 1 (initialMessages target objective) inputs

/-- One line group of `_summarize_history_for_report` (source lines 228-235):
a one-line status note for a terminal record, thought and executed command for
any other. -/
def summarize_record (r : StepRecord) : String :=
  if r.command = Json.str "FINISH_SUCCESS" ∨ r.command = Json.str "FINISH_FAILURE" then
    "Step " ++ toString r.step ++ ": Mission finished with status: " ++ pyStrOf r.command ++ "."
  else
    "Step " ++ toString r.step ++ ":\n- Thought: " ++ pyStrOf r.thought ++ "\n- Command Executed: " ++ pyStrOf r.command

/-- `AIAgent._summarize_history_for_report` (source lines 226-236):
the per-record summaries joined by newlines. -/
def summarize_history (hist : List StepRecord) : String :=
  String.intercalate "\n" (hist.map summarize_record)

/-- Placeholder record for the total rendering of Python's `history[-2]`
indexing; `generate_report`'s gate guarantees at least two entries, so the
placeholder is never selected on the narrative path. -/
def defaultRecord : StepRecord :=
  ⟨0, Json.null, Json.null, "", ""⟩

/-- The evidence selection of `generate_report` (source lines 251-253): the
second-to-last record's `result`, stripped; when that strips to the empty
string and the record's `result_summary` pointer is set, a note naming the
spill file (the last space-separated token of the pointer text) replaces it.
The records this program builds always carry a `result` key, so the `.get`
default string is unreachable. -/
def final_evidence (hist : List StepRecord) : String :=
  let r := hist.getD (hist.length - 2) defaultRecord
  let ev := pyStrip r.result
  if ev = "" ∧ r.result_summary ≠ "" then
    "Evidence is located in the file: " ++ ((pySplit r.result_summary " ").getLastD "")
  else ev

/-- The report synthesis prompt (source lines 255-280): the triple-quoted
f-string with the mission details, the rendered log and the selected evidence
spliced into its fixed frame. -/
def report_prompt (target objective mission_log evidence : String) : String :=
  "\n        You are a senior penetration tester summarizing the results of an engagement.\n        Based on the following mission log and final evidence, write a final report for the client.\n\n        The report must be clear, concise, and professional. You MUST strictly follow the Markdown formatting rules below:\n        - The main title MUST start with a single hashtag (#).\n        - Each section title MUST start with two hashtags (##).\n        - The two required section titles are EXACTLY: `## Executive Summary` and `## Proof of Concept (PoC)`.\n        - The evidence in the PoC section MUST be enclosed in a single fenced code block (using ```).\n\n        **Mission Details:**\n        - **Target:** " ++ target ++ "\n        - **Objective:** " ++ objective ++ "\n\n        **Execution Log (for your context only):**\n        ---\n        " ++ mission_log ++ "\n        ---\n\n        **Final Proof of Concept (PoC) Data:**\n        ---\n        " ++ evidence ++ "\n        ---\n\n        Now, generate the final report based on these instructions.\n        "

/-- `self.history[-1]['command']`, total over possibly-empty histories (the
source only reads it behind the emptiness short-circuit). -/
def lastCommand (hist : List StepRecord) : Json :=
  match hist.getLast? with
  | some r => r.command
  | none => Json.null

/-- What `generate_report` does: either print the minimal failure summary —
target, objective and the final status — and return without any model call,
or issue exactly one further `call_llm` with the narrative report prompt. -/
inductive ReportAction where
  | failureSummary (target objective : String) (lastStatus : Json)
  | narrative (prompt : String)

/-- How many additional model calls each `generate_report` outcome issues:
the narrative path calls `call_llm` exactly once (source line 286), the
failure-summary path returns at source line 248 before any call. -/
def reportModelCalls : ReportAction → Nat
  | ReportAction.failureSummary _ _ _ => 0
  | ReportAction.narrative _ => 1

/-- `AIAgent.generate_report` (source lines 238-286): the gate of line 241 —
empty history, last command not the success sentinel, or fewer than two
entries — selects the minimal failure summary with the last status (`UNKNOWN`
when the history is empty, source line 242); otherwise the narrative prompt is
built from the summarized log and the selected evidence and sent to the
model. -/
def generate_report (target objective : String) (hist : List StepRecord) :
    ReportAction :=
  if hist.isEmpty = true ∨ ¬ lastCommand hist = Json.str "FINISH_SUCCESS" ∨ hist.length < 2 then
    ReportAction.failureSummary target objective
      (if hist.isEmpty then Json.str "UNKNOWN" else lastCommand hist)
  else
    ReportAction.narrative
      (report_prompt target objective (summarize_history hist) (final_evidence hist))

/-- The message at position `i` of a step outcome's conversation (empty
message when the step crashed or the index is out of range). -/
def stepMsgAt (o : Option StepOutcome) (i : Nat) : Msg :=
  match o with
  | some out => out.msgs.getD i ⟨"", ""⟩
  | none => ⟨"", ""⟩

/-- How many conversation messages a step outcome holds. -/
def stepMsgCount (o : Option StepOutcome) : Nat :=
  match o with
  | some out => out.msgs.length
  | none => 0

/-- A model reply that is not valid JSON, paired with its failed decode. -/
def invalidReplyInput : LoopInput :=
  ⟨"I will scan the target now.", none⟩

/-- A command executor whose every spawn returns the two-character output
"ok". -/
def echoRunner : Json → String :=
  fun _ => "ok"

/-- The seed conversation of a concrete mission. -/
def seedMsgs : List Msg :=
  initialMessages "example.com" "identify open ports"

/-- A command output one character over the spill threshold. -/
def hugeResult : String :=
  String.mk (List.replicate 30001 'A')

/-- A history record exactly as the loop builds it for a spilled step: the
full oversized output in `result` and the pointer text in `result_summary`. -/
def spilledRecord : StepRecord :=
  ⟨1, Json.str "read the large capture", Json.str "cat capture.txt", hugeResult,
   spillSummary (spillFilename 1)⟩

/-- The terminal success record closing that mission. -/
def successRecord : StepRecord :=
  ⟨2, Json.str "objective achieved", Json.str "FINISH_SUCCESS", "", ""⟩

/-- A two-step successful mission history whose penultimate step spilled. -/
def spilledHistory : List StepRecord :=
  [spilledRecord, successRecord]

/-! Helper lemmas. -/

lemma charListPrefix_iff : ∀ (n h : List Char), charListPrefix n h = true ↔ ∃ t, h = n ++ t
  | [], h => by simp [charListPrefix]
  | _ :: _, [] => by simp [charListPrefix]
  | c :: cs, d :: ds => by
    rw [charListPrefix]
    simp only [Bool.and_eq_true, beq_iff_eq, charListPrefix_iff cs ds, List.cons_append]
    constructor
    · rintro ⟨rfl, t, rfl⟩
      exact ⟨t, rfl⟩
    · rintro ⟨t, h⟩
      injection h with h1 h2
      exact ⟨h1.symm, t, h2⟩

lemma charListInfix_iff : ∀ (n h : List Char), charListInfix n h = true ↔ ∃ s t, h = s ++ n ++ t
  | n, [] => by
    rw [charListInfix]
    simp only [charListPrefix_iff]
    constructor
    · rintro ⟨t, h⟩
      exact ⟨[], t, by simpa using h⟩
    · rintro ⟨s, t, h⟩
      refine ⟨t, ?_⟩
      rcases List.append_eq_nil.mp (List.append_eq_nil.mp h.symm).1 with ⟨hs, hn⟩
      simp [hs, hn, (List.append_eq_nil.mp h.symm).2]
  | n, d :: ds => by
    rw [charListInfix]
    simp only [Bool.or_eq_true, charListPrefix_iff, charListInfix_iff n ds]
    constructor
    · rintro (⟨t, h⟩ | ⟨s, t, h⟩)
      · exact ⟨[], t, by simpa using h⟩
      · exact ⟨d :: s, t, by simp [h]⟩
    · rintro ⟨s, t, h⟩
      cases s with
      | nil => exact Or.inl ⟨t, by simpa using h⟩
      | cons x xs =>
        refine Or.inr ?_
        rw [List.cons_append, List.cons_append] at h
        injection h with h1 h2
        exact ⟨xs, t, by simpa using h2⟩

lemma strContains_iff (hay needle : String) :
    strContains hay needle = true ↔ ∃ pre post, hay = pre ++ needle ++ post := by
  unfold strContains
  rw [charListInfix_iff]
  constructor
  · rintro ⟨s, t, h⟩
    refine ⟨String.mk s, String.mk t, String.ext ?_⟩
    simpa [String.data_append] using h
  · rintro ⟨pre, post, rfl⟩
    exact ⟨pre.data, post.data, by simp [String.data_append]⟩

lemma actionCommand_obj (inp : LoopInput) (c : Json) (hc : actionCommand inp = some c) :
    ∃ fields, parse_llm_response inp.decoded = Json.obj fields ∧
      pyGet fields "command" (Json.str "") = c := by
  unfold actionCommand at hc
  cases hp : parse_llm_response inp.decoded <;> rw [hp] at hc
  case obj fields =>
    refine ⟨fields, rfl, ?_⟩
    injection hc
  all_goals exact Option.noConfusion hc

lemma missionStep_eq_of_obj (runner : Json → String) (stepN : Nat) (msgs : List Msg)
    (inp : LoopInput) (fields : List (String × Json))
    (hp : parse_llm_response inp.decoded = Json.obj fields) :
    missionStep runner stepN msgs inp =
      (if pyGet fields "command" (Json.str "") = Json.str "FINISH_SUCCESS" ∨
          pyGet fields "command" (Json.str "") = Json.str "FINISH_FAILURE" then
        some ⟨⟨stepN, pyGet fields "thought" (Json.str "No thought recorded."),
               pyGet fields "command" (Json.str ""), "", ""⟩, msgs, none, true⟩
      else if (execute_command runner (pyGet fields "command" (Json.str ""))).length >
          MAX_OUTPUT_LENGTH then
        some ⟨⟨stepN, pyGet fields "thought" (Json.str "No thought recorded."),
               pyGet fields "command" (Json.str ""),
               execute_command runner (pyGet fields "command" (Json.str "")),
               spillSummary (spillFilename stepN)⟩,
              msgs ++ [⟨"assistant", dumps (Json.obj fields)⟩,
                       ⟨"user", spillFeedback (spillFilename stepN)⟩],
              some (spillFilename stepN,
                    execute_command runner (pyGet fields "command" (Json.str ""))), false⟩
      else
        some ⟨⟨stepN, pyGet fields "thought" (Json.str "No thought recorded."),
               pyGet fields "command" (Json.str ""),
               execute_command runner (pyGet fields "command" (Json.str "")), ""⟩,
              msgs ++ [⟨"assistant", dumps (Json.obj fields)⟩,
                       ⟨"user", inlineFeedback (execute_command runner
                         (pyGet fields "command" (Json.str "")))⟩],
              none, false⟩) := by
  unfold missionStep
  rw [hp]

lemma missionStep_terminal_shape (runner : Json → String) (stepN : Nat) (msgs : List Msg)
    (inp : LoopInput) (c : Json) (hc : actionCommand inp = some c) (ht : IsTerminalCmd c) :
    ∃ th, missionStep runner stepN msgs inp = some ⟨⟨stepN, th, c, "", ""⟩, msgs, none, true⟩ := by
  obtain ⟨fields, hp, hcmd⟩ := actionCommand_obj inp c hc
  have ht' : c = Json.str "FINISH_SUCCESS" ∨ c = Json.str "FINISH_FAILURE" := ht
  rw [missionStep_eq_of_obj runner stepN msgs inp fields hp, hcmd, if_pos ht']
  exact ⟨_, rfl⟩

lemma missionStep_nonterminal_shape (runner : Json → String) (stepN : Nat) (msgs : List Msg)
    (inp : LoopInput) (c : Json) (hc : actionCommand inp = some c) (hnt : ¬ IsTerminalCmd c) :
    ∃ out, missionStep runner stepN msgs inp = some out ∧
      out.terminal = false ∧ out.record.step = stepN ∧ out.record.command = c := by
  obtain ⟨fields, hp, hcmd⟩ := actionCommand_obj inp c hc
  have hnt' : ¬ (c = Json.str "FINISH_SUCCESS" ∨ c = Json.str "FINISH_FAILURE") := hnt
  rw [missionStep_eq_of_obj runner stepN msgs inp fields hp, hcmd, if_neg hnt']
  by_cases hlen : (execute_command runner c).length > MAX_OUTPUT_LENGTH
  · rw [if_pos hlen]
    exact ⟨_, rfl, rfl, rfl, rfl⟩
  · rw [if_neg hlen]
    exact ⟨_, rfl, rfl, rfl, rfl⟩

lemma dropWhile_replicateA (m : Nat) :
    (List.replicate m 'A').dropWhile pySpaceChar = List.replicate m 'A' := by
  cases m with
  | zero => rfl
  | succ k =>
    rw [List.replicate_succ, List.dropWhile_cons]
    simp [pySpaceChar]

lemma pyStrip_replicateA (n : Nat) :
    pyStrip (String.mk (List.replicate n 'A')) = String.mk (List.replicate n 'A') := by
  unfold pyStrip
  rw [show (String.mk (List.replicate n 'A')).data = List.replicate n 'A' from rfl,
    dropWhile_replicateA, List.reverse_replicate, dropWhile_replicateA, List.reverse_replicate]

lemma pyStrip_hugeResult : pyStrip hugeResult = hugeResult :=
  pyStrip_replicateA 30001

lemma hugeResult_ne_empty : hugeResult ≠ "" := by
  intro h
  have h2 : List.replicate 30001 'A' = ([] : List Char) := congrArg String.data h
  have h3 := congrArg List.length h2
  rw [List.length_replicate, List.length_nil] at h3
  exact absurd h3 (by norm_num)

lemma hugeResult_length : hugeResult.length = 30001 := by
  show (List.replicate 30001 'A').length = 30001
  exact List.length_replicate 30001 'A'

lemma spillSummary_ne_empty (filename : String) : spillSummary filename ≠ "" := by
  intro h
  have h2 : ("Output too large, saved to " ++ filename).data = ("" : String).data :=
    congrArg String.data h
  rw [String.data_append] at h2
  exact absurd (List.append_eq_nil.mp h2).1 (by decide)

/-! Claim theorems. -/

/-- C7: for every successful reply string, `call_llm`'s post-processing
returns the text enclosed by a "```json"-opened fence (up to the next plain
fence, stripped) whenever the reply contains that language-tagged fence
opener; otherwise, when the whole stripped reply is wrapped in a plain
"```"-fence, the three-character wrapping is dropped from both ends; otherwise
the reply is returned unchanged. -/
theorem c7_fence_normalization (content : String) :
    ((∃ pre post, content = pre ++ "```json" ++ post) →
        stripFences content = jsonFenceExtract content) ∧
    ((¬ ∃ pre post, content = pre ++ "```json" ++ post) →
      pyStartsWith (pyStrip content) "```" = true →
      pyEndsWith (pyStrip content) "```" = true →
        stripFences content = pyStrip (pySlice (pyStrip content) 3 3)) ∧
    ((¬ ∃ pre post, content = pre ++ "```json" ++ post) →
      ¬ (pyStartsWith (pyStrip content) "```" = true ∧ pyEndsWith (pyStrip content) "```" = true) →
        stripFences content = content) := by
  refine ⟨fun h => ?_, fun h h1 h2 => ?_, fun h h12 => ?_⟩
  · rw [stripFences, if_pos ((strContains_iff content "```json").mpr h)]
  · rw [stripFences, if_neg (fun hb => h ((strContains_iff content "```json").mp hb)),
      if_pos (by rw [h1, h2]; rfl)]
  · rw [stripFences, if_neg (fun hb => h ((strContains_iff content "```json").mp hb)), if_neg ?_]
    intro hb
    exact h12 ((Bool.and_eq_true _ _).mp hb)

/-- Witness for C7 at a concrete reply carrying a "```json" fence. -/
theorem c7_fence_normalization_witness :
    stripFences "Sure!```json\n\x7b\"command\": \"ls\"\x7d\n``` bye" = "\x7b\"command\": \"ls\"\x7d" := by
  have h := (c7_fence_normalization "Sure!```json\n\x7b\"command\": \"ls\"\x7d\n``` bye").1
    ⟨"Sure!", "\n\x7b\"command\": \"ls\"\x7d\n``` bye", by decide⟩
  rw [h]
  decide

/-- C4: `parse_llm_response` is total — it either hands back the decoded
value or, whenever structured decoding failed, the fixed fallback action,
whose command is the non-terminal diagnostic echo (never `FINISH_SUCCESS` or
`FINISH_FAILURE`). -/
theorem c4_parse_total_fallback (d : Option Json) :
    (some (parse_llm_response d) = d ∨ parse_llm_response d = FALLBACK_ACTION) ∧
    (d = none → parse_llm_response d = FALLBACK_ACTION) ∧
    (∀ raw : String, actionCommand ⟨raw, none⟩ =
        some (Json.str "echo 'AI response has invalid format.'")) ∧
    ¬ IsTerminalCmd (Json.str "echo 'AI response has invalid format.'") := by
  refine ⟨?_, ?_, fun raw => rfl, by decide⟩
  · cases d with
    | none => exact Or.inr rfl
    | some v => exact Or.inl rfl
  · rintro rfl
    rfl

/-- Witness for C4 at the concrete decode-failure outcome. -/
theorem c4_parse_total_fallback_witness :
    parse_llm_response none = FALLBACK_ACTION ∧
    ¬ IsTerminalCmd (Json.str "echo 'AI response has invalid format.'") :=
  ⟨(c4_parse_total_fallback none).2.1 rfl, (c4_parse_total_fallback none).2.2.2⟩

/-- C9: a reply that decodes to valid JSON is returned unchanged by
`parse_llm_response`, even when it is not an object — for example the bare
number 7 — so the returned value carries no `thought`/`command` fields and
the loop body finds no command to read. -/
theorem c9_nonobject_passthrough (v : Json) :
    parse_llm_response (some v) = v ∧
    parse_llm_response (some (Json.num 7)) = Json.num 7 ∧
    parse_llm_response (some (Json.num 7)) ≠ FALLBACK_ACTION ∧
    actionCommand ⟨"7", some (Json.num 7)⟩ = none := by
  refine ⟨rfl, rfl, ?_, rfl⟩
  intro h
  exact Json.noConfusion h

/-- C2: `generate_report` on an empty history, a history with fewer than two
entries, or a history whose last command is not `FINISH_SUCCESS`, produces
only the minimal failure summary — target, objective, final status — with no
extra model call; the extra model call happens exactly when the last command
is `FINISH_SUCCESS` and the history has at least two entries. -/
theorem c2_report_gate (target objective : String) (hist : List StepRecord) :
    ((hist.length < 2 ∨ ¬ lastCommand hist = Json.str "FINISH_SUCCESS") →
        generate_report target objective hist =
          ReportAction.failureSummary target objective
            (if hist.isEmpty then Json.str "UNKNOWN" else lastCommand hist) ∧
        reportModelCalls (generate_report target objective hist) = 0) ∧
    (reportModelCalls (generate_report target objective hist) = 1 ↔
        (lastCommand hist = Json.str "FINISH_SUCCESS" ∧ 2 ≤ hist.length)) := by
  by_cases hgate : hist.isEmpty = true ∨ ¬ lastCommand hist = Json.str "FINISH_SUCCESS" ∨ hist.length < 2
  · rw [generate_report, if_pos hgate]
    have hside : hist.length < 2 ∨ ¬ lastCommand hist = Json.str "FINISH_SUCCESS" := by
      rcases hgate with h | h | h
      · exact Or.inl (by rw [List.isEmpty_iff.mp h]; decide)
      · exact Or.inr h
      · exact Or.inl h
    refine ⟨fun _ => ⟨rfl, rfl⟩, ?_⟩
    simp only [reportModelCalls]
    constructor
    · intro h01
      exact absurd h01 (by decide)
    · rintro ⟨hcmd, hlen⟩
      rcases hside with h | h
      · omega
      · exact absurd hcmd h
  · push_neg at hgate
    obtain ⟨hne, hcmd, hlen⟩ := hgate
    rw [generate_report, if_neg (by push_neg; exact ⟨hne, hcmd, hlen⟩)]
    refine ⟨?_, ?_⟩
    · rintro (h | h)
      · omega
      · exact absurd hcmd h
    · simp only [reportModelCalls]
      exact ⟨fun _ => ⟨hcmd, by omega⟩, fun _ => by simp⟩

/-- Witness for C2: the empty history yields the minimal failure summary with
status UNKNOWN and issues no model call. -/
theorem c2_report_gate_witness :
    generate_report "example.com" "identify open ports" [] =
      ReportAction.failureSummary "example.com" "identify open ports" (Json.str "UNKNOWN") ∧
    reportModelCalls (generate_report "example.com" "identify open ports" []) = 0 := by
  have h := (c2_report_gate "example.com" "identify open ports" []).1 (Or.inl (by decide))
  simpa using h

/-- C5: `call_llm` makes at most 3 backend attempts; with transient failures
on the first two attempts and a success on the third, it sleeps
`5 * 1 + 5 * 2 = 15` seconds in total and returns the third attempt's
(fence-normalized) content; with transient failures on all three attempts it
returns the synthesized critical-failure payload as a string instead of
raising. -/
theorem c5_retry_policy (backend : Nat → BackendResult) :
    (call_llm backend).attemptsUsed ≤ 3 ∧
    (∀ c, backend 0 = BackendResult.transient → backend 1 = BackendResult.transient →
        backend 2 = BackendResult.ok c →
        call_llm backend =
          ⟨stripFences c, backoff_factor * 1 + backoff_factor * 2, 3⟩ ∧
        15 ≤ (call_llm backend).totalWait) ∧
    (backend 0 = BackendResult.transient → backend 1 = BackendResult.transient →
        backend 2 = BackendResult.transient →
        call_llm backend = ⟨CRITICAL_FAILURE_FALLBACK, 15, 3⟩) := by
  refine ⟨?_, fun c h0 h1 h2 => ?_, fun h0 h1 h2 => ?_⟩
  · show (call_llm_go backend 3 0 0).attemptsUsed ≤ 3
    rw [show (3 : Nat) = 2 + 1 from rfl, call_llm_go]
    cases h0 : backend 0 <;> simp only []
    · exact Nat.le_refl 1 |>.trans (by omega)
    rotate_left
    · exact by omega
    · rw [if_neg (by omega), call_llm_go]
      cases h1 : backend 1 <;> simp only []
      · exact by omega
      rotate_left
      · exact by omega
      · rw [if_neg (by omega), call_llm_go]
        cases h2 : backend 2 <;> simp only []
        · exact by omega
        rotate_left
        · exact by omega
        · simp
  · have e : call_llm backend = ⟨stripFences c, 0 + backoff_factor * (0 + 1) + backoff_factor * (1 + 1), 2 + 1⟩ := by
      show call_llm_go backend 3 0 0 = _
      rw [show (3 : Nat) = 2 + 1 from rfl, call_llm_go, h0]
      simp only []
      rw [if_neg (by omega), call_llm_go, h1]
      simp only []
      rw [if_neg (by omega), call_llm_go, h2]
    constructor
    · rw [e]
      norm_num
    · rw [e]
      show 15 ≤ 0 + backoff_factor * (0 + 1) + backoff_factor * (1 + 1)
      norm_num [backoff_factor]
  · show call_llm_go backend 3 0 0 = _
    rw [show (3 : Nat) = 2 + 1 from rfl, call_llm_go, h0]
    simp only []
    rw [if_neg (by omega), call_llm_go, h1]
    simp only []
    rw [if_neg (by omega), call_llm_go, h2]
    norm_num [backoff_factor]

/-- Witness for C5: a backend failing transiently twice and succeeding on the
third attempt. -/
theorem c5_retry_policy_witness :
    call_llm (fun n => if n = 2 then BackendResult.ok "done" else BackendResult.transient) =
      ⟨"done", 15, 3⟩ := by
  have h := ((c5_retry_policy
      (fun n => if n = 2 then BackendResult.ok "done" else BackendResult.transient)).2.1
      "done" rfl rfl rfl).1
  rw [h]
  decide

/-- C3: for a non-terminal step, a result of at most 30000 characters is
embedded verbatim in the next user turn, with no spill file and the pointer
field left empty; a longer result is written in full to the file named from
the step index, the user turn names that file instead of carrying the
content, and the pointer field is set.  The pointer is set if and only if the
threshold was exceeded, and the spill file's contents equal the original
result. -/
theorem c3_spill_threshold (runner : Json → String) (stepN : Nat) (msgs : List Msg)
    (inp : LoopInput) (c : Json) (hc : actionCommand inp = some c)
    (hnt : ¬ IsTerminalCmd c) :
    ∃ out, missionStep runner stepN msgs inp = some out ∧
      ((execute_command runner c).length ≤ MAX_OUTPUT_LENGTH →
        out.spill = none ∧ out.record.result_summary = "" ∧
        out.msgs = msgs ++ [⟨"assistant", dumps (parse_llm_response inp.decoded)⟩,
          ⟨"user", "The result of your last command was:\n---\n" ++ execute_command runner c ++
            "\n---\nBased on this full result, what is your next step?"⟩]) ∧
      (MAX_OUTPUT_LENGTH < (execute_command runner c).length →
        out.spill = some (spillFilename stepN, execute_command runner c) ∧
        out.record.result_summary = "Output too large, saved to " ++ spillFilename stepN ∧
        out.msgs = msgs ++ [⟨"assistant", dumps (parse_llm_response inp.decoded)⟩,
          ⟨"user", spillFeedback (spillFilename stepN)⟩]) ∧
      (out.record.result_summary ≠ "" ↔ MAX_OUTPUT_LENGTH < (execute_command runner c).length) := by
  obtain ⟨fields, hp, hcmd⟩ := actionCommand_obj inp c hc
  have hnt' : ¬ (c = Json.str "FINISH_SUCCESS" ∨ c = Json.str "FINISH_FAILURE") := hnt
  rw [missionStep_eq_of_obj runner stepN msgs inp fields hp, hcmd, if_neg hnt', hp]
  by_cases hlen : (execute_command runner c).length > MAX_OUTPUT_LENGTH
  · rw [if_pos hlen]
    exact ⟨_, rfl, fun hle => absurd hlen (by omega), fun _ => ⟨rfl, rfl, rfl⟩,
      fun _ => hlen, fun _ => spillSummary_ne_empty _⟩
  · rw [if_neg hlen]
    refine ⟨_, rfl, fun _ => ⟨rfl, rfl, rfl⟩, fun hgt => absurd hgt hlen, ?_⟩
    exact ⟨fun habs => absurd rfl habs, fun hgt => absurd hgt hlen⟩

/-- Witness for C3 at a concrete short-output step. -/
theorem c3_spill_threshold_witness :
    ∃ out, missionStep echoRunner 1 seedMsgs
        ⟨"raw", some (Json.obj [("thought", Json.str "scan"), ("command", Json.str "nmap -F example.com")])⟩ =
        some out ∧
      ((execute_command echoRunner (Json.str "nmap -F example.com")).length ≤ MAX_OUTPUT_LENGTH →
        out.spill = none ∧ out.record.result_summary = "" ∧
        out.msgs = seedMsgs ++ [⟨"assistant", dumps (parse_llm_response
            (some (Json.obj [("thought", Json.str "scan"), ("command", Json.str "nmap -F example.com")])))⟩,
          ⟨"user", "The result of your last command was:\n---\n" ++
            execute_command echoRunner (Json.str "nmap -F example.com") ++
            "\n---\nBased on this full result, what is your next step?"⟩]) ∧
      (MAX_OUTPUT_LENGTH < (execute_command echoRunner (Json.str "nmap -F example.com")).length →
        out.spill = some (spillFilename 1, execute_command echoRunner (Json.str "nmap -F example.com")) ∧
        out.record.result_summary = "Output too large, saved to " ++ spillFilename 1 ∧
        out.msgs = seedMsgs ++ [⟨"assistant", dumps (parse_llm_response
            (some (Json.obj [("thought", Json.str "scan"), ("command", Json.str "nmap -F example.com")])))⟩,
          ⟨"user", spillFeedback (spillFilename 1)⟩]) ∧
      (out.record.result_summary ≠ "" ↔
        MAX_OUTPUT_LENGTH < (execute_command echoRunner (Json.str "nmap -F example.com")).length) :=
  c3_spill_threshold echoRunner 1 seedMsgs
    ⟨"raw", some (Json.obj [("thought", Json.str "scan"), ("command", Json.str "nmap -F example.com")])⟩
    (Json.str "nmap -F example.com") rfl (by decide)

/-- C10: a non-terminal step's record keeps the complete executor output in
its `result` field even when the output exceeded the spill threshold;
spilling sets the pointer field in addition to — never in place of — the full
result, and the spill file receives that same full output. -/
theorem c10_full_result_retained (runner : Json → String) (stepN : Nat) (msgs : List Msg)
    (inp : LoopInput) (c : Json) (hc : actionCommand inp = some c)
    (hnt : ¬ IsTerminalCmd c) :
    ∃ out, missionStep runner stepN msgs inp = some out ∧
      out.terminal = false ∧
      out.record.result = execute_command runner c ∧
      (MAX_OUTPUT_LENGTH < (execute_command runner c).length →
        out.record.result_summary ≠ "" ∧
        out.record.result = execute_command runner c ∧
        out.spill = some (spillFilename stepN, execute_command runner c)) := by
  obtain ⟨fields, hp, hcmd⟩ := actionCommand_obj inp c hc
  have hnt' : ¬ (c = Json.str "FINISH_SUCCESS" ∨ c = Json.str "FINISH_FAILURE") := hnt
  rw [missionStep_eq_of_obj runner stepN msgs inp fields hp, hcmd, if_neg hnt']
  by_cases hlen : (execute_command runner c).length > MAX_OUTPUT_LENGTH
  · rw [if_pos hlen]
    exact ⟨_, rfl, rfl, rfl, fun _ => ⟨spillSummary_ne_empty _, rfl, rfl⟩⟩
  · rw [if_neg hlen]
    exact ⟨_, rfl, rfl, rfl, fun hgt => absurd hgt hlen⟩

/-- Witness for C10 at a concrete short-output step. -/
theorem c10_full_result_retained_witness :
    ∃ out, missionStep echoRunner 1 seedMsgs
        ⟨"raw", some (Json.obj [("thought", Json.str "scan"), ("command", Json.str "nmap -F example.com")])⟩ =
        some out ∧
      out.terminal = false ∧
      out.record.result = execute_command echoRunner (Json.str "nmap -F example.com") ∧
      (MAX_OUTPUT_LENGTH < (execute_command echoRunner (Json.str "nmap -F example.com")).length →
        out.record.result_summary ≠ "" ∧
        out.record.result = execute_command echoRunner (Json.str "nmap -F example.com") ∧
        out.spill = some (spillFilename 1, execute_command echoRunner (Json.str "nmap -F example.com"))) :=
  c10_full_result_retained echoRunner 1 seedMsgs
    ⟨"raw", some (Json.obj [("thought", Json.str "scan"), ("command", Json.str "nmap -F example.com")])⟩
    (Json.str "nmap -F example.com") rfl (by decide)

/-- C6 (amended): after every non-terminal step exactly two messages are
appended to the conversation — first an assistant turn carrying the JSON
re-serialization of the parsed action (`json.dumps(action)`, which equals the
model's raw reply only up to re-serialization and is the fallback action's
serialization when parsing failed), then a user turn carrying either the
inline result or the spill pointer note; everything already in the context is
left untouched. -/
theorem c6_context_append (runner : Json → String) (stepN : Nat) (msgs : List Msg)
    (inp : LoopInput) (c : Json) (hc : actionCommand inp = some c)
    (hnt : ¬ IsTerminalCmd c) :
    ∃ out, missionStep runner stepN msgs inp = some out ∧
      out.terminal = false ∧
      (out.msgs = msgs ++ [⟨"assistant", dumps (parse_llm_response inp.decoded)⟩,
          ⟨"user", inlineFeedback (execute_command runner c)⟩] ∨
       out.msgs = msgs ++ [⟨"assistant", dumps (parse_llm_response inp.decoded)⟩,
          ⟨"user", spillFeedback (spillFilename stepN)⟩]) ∧
      out.msgs.length = msgs.length + 2 ∧
      out.msgs.take msgs.length = msgs := by
  obtain ⟨fields, hp, hcmd⟩ := actionCommand_obj inp c hc
  have hnt' : ¬ (c = Json.str "FINISH_SUCCESS" ∨ c = Json.str "FINISH_FAILURE") := hnt
  rw [missionStep_eq_of_obj runner stepN msgs inp fields hp, hcmd, if_neg hnt', hp]
  by_cases hlen : (execute_command runner c).length > MAX_OUTPUT_LENGTH
  · rw [if_pos hlen]
    exact ⟨_, rfl, rfl, Or.inr rfl, by simp, by simp [List.take_left]⟩
  · rw [if_neg hlen]
    exact ⟨_, rfl, rfl, Or.inl rfl, by simp, by simp [List.take_left]⟩

/-- Witness for C6's amended statement at a concrete non-terminal step. -/
theorem c6_context_append_witness :
    ∃ out, missionStep echoRunner 1 seedMsgs
        ⟨"raw", some (Json.obj [("thought", Json.str "scan"), ("command", Json.str "nmap -F example.com")])⟩ =
        some out ∧
      out.terminal = false ∧
      (out.msgs = seedMsgs ++ [⟨"assistant", dumps (parse_llm_response
            (some (Json.obj [("thought", Json.str "scan"), ("command", Json.str "nmap -F example.com")])))⟩,
          ⟨"user", inlineFeedback (execute_command echoRunner (Json.str "nmap -F example.com"))⟩] ∨
       out.msgs = seedMsgs ++ [⟨"assistant", dumps (parse_llm_response
            (some (Json.obj [("thought", Json.str "scan"), ("command", Json.str "nmap -F example.com")])))⟩,
          ⟨"user", spillFeedback (spillFilename 1)⟩]) ∧
      out.msgs.length = seedMsgs.length + 2 ∧
      out.msgs.take seedMsgs.length = seedMsgs :=
  c6_context_append echoRunner 1 seedMsgs
    ⟨"raw", some (Json.obj [("thought", Json.str "scan"), ("command", Json.str "nmap -F example.com")])⟩
    (Json.str "nmap -F example.com") rfl (by decide)

set_option maxRecDepth 40000 in
/-- Counterexample to C6 as stated: when the model's reply fails to decode,
the appended assistant turn does not carry the model's own prior reply — it
carries the serialized fallback action instead. -/
theorem c6_assistant_turn_counterexample :
    stepMsgCount (missionStep echoRunner 1 seedMsgs invalidReplyInput) = 4 ∧
    (stepMsgAt (missionStep echoRunner 1 seedMsgs invalidReplyInput) 2).role = "assistant" ∧
    (stepMsgAt (missionStep echoRunner 1 seedMsgs invalidReplyInput) 2).content ≠
      invalidReplyInput.raw ∧
    (stepMsgAt (missionStep echoRunner 1 seedMsgs invalidReplyInput) 2).content =
      dumps FALLBACK_ACTION := by
  refine ⟨rfl, rfl, by decide, rfl⟩

lemma runLoop_terminal_spec (runner : Json → String) (pre : List LoopInput)
    (lastI : LoopInput) :
    ∀ (stepN : Nat) (msgs : List Msg),
    (∀ inp ∈ pre, ∃ c, actionCommand inp = some c ∧ ¬ IsTerminalCmd c) →
    (∃ c, actionCommand lastI = some c ∧ IsTerminalCmd c) →
    ∃ hist finalMsgs,
      runLoop runner stepN msgs (pre ++ [lastI]) = some (hist, finalMsgs) ∧
      hist.length = pre.length + 1 ∧
      hist.map StepRecord.step = List.range' stepN hist.length ∧
      ∀ i (h : i < hist.length),
        (IsTerminalCmd (hist.get ⟨i, h⟩).command ↔ i = hist.length - 1) := by
  induction pre with
  | nil =>
    intro stepN msgs _ hlast
    obtain ⟨c, hc, ht⟩ := hlast
    obtain ⟨th, hms⟩ := missionStep_terminal_shape runner stepN msgs lastI c hc ht
    refine ⟨[⟨stepN, th, c, "", ""⟩], msgs, ?_, rfl, rfl, ?_⟩
    · show runLoop runner stepN msgs [lastI] = _
      unfold runLoop
      rw [hms]
      rfl
    · intro i h
      have hi : i = 0 := by
        simp only [List.length_singleton] at h
        omega
      subst hi
      simpa using ht
  | cons p pre' ih =>
    intro stepN msgs hpre hlast
    obtain ⟨c, hc, hnt⟩ := hpre p (List.mem_cons_self p pre')
    obtain ⟨⟨rec, omsgs, ospill, oterm⟩, hms, hterm, hstep, hcmdrec⟩ :=
      missionStep_nonterminal_shape runner stepN msgs p c hc hnt
    have hterm' : oterm = false := hterm
    subst hterm'
    have hstep' : rec.step = stepN := hstep
    have hcmd' : rec.command = c := hcmdrec
    obtain ⟨hist', m', hrun, hlen', hmap', hiff'⟩ :=
      ih (stepN + 1) omsgs (fun inp hi => hpre inp (List.mem_cons_of_mem p hi)) hlast
    refine ⟨rec :: hist', m', ?_, by simp [hlen'], ?_, ?_⟩
    · show runLoop runner stepN msgs (p :: (pre' ++ [lastI])) = _
      unfold runLoop
      rw [hms]
      show (match runLoop runner (stepN + 1) omsgs (pre' ++ [lastI]) with
        | none => none
        | some (hist, finalMsgs) => some (rec :: hist, finalMsgs)) = _
      rw [hrun]
    · show rec.step :: hist'.map StepRecord.step = List.range' stepN (hist'.length + 1)
      rw [show List.range' stepN (hist'.length + 1) = stepN :: List.range' (stepN + 1) hist'.length
        from rfl, hstep', hmap']
    · intro i h
      cases i with
      | zero =>
        show IsTerminalCmd rec.command ↔ 0 = (rec :: hist').length - 1
        rw [hcmd']
        constructor
        · intro hx
          exact absurd hx hnt
        · intro h0
          simp only [List.length_cons] at h0
          omega
      | succ i' =>
        have h' : i' < hist'.length := by
          simp only [List.length_cons] at h
          omega
        have hrec := hiff' i' h'
        show IsTerminalCmd (hist'.get ⟨i', h'⟩).command ↔ i' + 1 = (rec :: hist').length - 1
        rw [hrec]
        simp only [List.length_cons]
        omega

/-- C8: a mission consisting of non-terminal actions followed by one terminal
action produces a history whose step numbers are exactly 1, 2, …, n — strictly
increasing and contiguous from 1 — and in which the terminal sentinel commands
appear exactly at the last record: nothing follows a terminal record. -/
theorem c8_history_invariants (runner : Json → String) (target objective : String)
    (pre : List LoopInput) (lastI : LoopInput)
    (hpre : ∀ inp ∈ pre, ∃ c, actionCommand inp = some c ∧ ¬ IsTerminalCmd c)
    (hlast : ∃ c, actionCommand lastI = some c ∧ IsTerminalCmd c) :
    ∃ hist finalMsgs,
      run_mission runner target objective (pre ++ [lastI]) = some (hist, finalMsgs) ∧
      hist.length = pre.length + 1 ∧
      hist.map StepRecord.step = List.range' 1 hist.length ∧
      ∀ i (h : i < hist.length),
        (IsTerminalCmd (hist.get ⟨i, h⟩).command ↔ i = hist.length - 1) :=
  runLoop_terminal_spec runner pre lastI 1 (initialMessages target objective) hpre hlast

/-- Witness for C8: a one-command mission closed by `FINISH_SUCCESS`. -/
theorem c8_history_invariants_witness :
    ∃ hist finalMsgs,
      run_mission echoRunner "example.com" "identify open ports"
        ([⟨"raw1", some (Json.obj [("thought", Json.str "scan"), ("command", Json.str "nmap -F example.com")])⟩] ++
         [⟨"raw2", some (Json.obj [("thought", Json.str "done"), ("command", Json.str "FINISH_SUCCESS")])⟩]) =
        some (hist, finalMsgs) ∧
      hist.length = 2 ∧
      hist.map StepRecord.step = List.range' 1 hist.length ∧
      ∀ i (h : i < hist.length),
        (IsTerminalCmd (hist.get ⟨i, h⟩).command ↔ i = hist.length - 1) := by
  have h := c8_history_invariants echoRunner "example.com" "identify open ports"
    [⟨"raw1", some (Json.obj [("thought", Json.str "scan"), ("command", Json.str "nmap -F example.com")])⟩]
    ⟨"raw2", some (Json.obj [("thought", Json.str "done"), ("command", Json.str "FINISH_SUCCESS")])⟩
    (by
      intro inp hi
      rw [List.mem_singleton] at hi
      subst hi
      exact ⟨Json.str "nmap -F example.com", rfl, by decide⟩)
    ⟨Json.str "FINISH_SUCCESS", rfl, Or.inl rfl⟩
  simpa using h

/-- C1 (amended): on the success path the report prompt embeds
`final_evidence`, and the evidence is the second-to-last record's result
stripped of whitespace; the spill-pointer note is used only when that
stripped result is empty and the pointer field is non-empty — in particular a
spilled result that strips to something non-empty is embedded in full, not
replaced by the note. -/
theorem c1_evidence_selection (target objective : String) (hist : List StepRecord)
    (hlen : 2 ≤ hist.length) (hlast : lastCommand hist = Json.str "FINISH_SUCCESS") :
    generate_report target objective hist =
      ReportAction.narrative (report_prompt target objective (summarize_history hist)
        (final_evidence hist)) ∧
    (pyStrip (hist.getD (hist.length - 2) defaultRecord).result ≠ "" →
      final_evidence hist = pyStrip (hist.getD (hist.length - 2) defaultRecord).result) ∧
    (pyStrip (hist.getD (hist.length - 2) defaultRecord).result = "" →
      (hist.getD (hist.length - 2) defaultRecord).result_summary ≠ "" →
      final_evidence hist = "Evidence is located in the file: " ++
        ((pySplit (hist.getD (hist.length - 2) defaultRecord).result_summary " ").getLastD "")) := by
  have e : final_evidence hist =
      (if pyStrip (hist.getD (hist.length - 2) defaultRecord).result = "" ∧
          (hist.getD (hist.length - 2) defaultRecord).result_summary ≠ "" then
        "Evidence is located in the file: " ++
          ((pySplit (hist.getD (hist.length - 2) defaultRecord).result_summary " ").getLastD "")
      else pyStrip (hist.getD (hist.length - 2) defaultRecord).result) := rfl
  refine ⟨?_, fun h1 => ?_, fun h1 h2 => ?_⟩
  · rw [generate_report, if_neg ?_]
    push_neg
    refine ⟨?_, hlast, by omega⟩
    cases hist with
    | nil => simp at hlen
    | cons a t => simp
  · rw [e, if_neg (fun hx => h1 hx.1)]
  · rw [e, if_pos ⟨h1, h2⟩]

/-- Witness for C1's amended statement at a concrete two-step success whose
penultimate result is short and inline. -/
theorem c1_evidence_selection_witness :
    generate_report "example.com" "identify open ports"
      [⟨1, Json.str "t", Json.str "ls", "ok", ""⟩, successRecord] =
      ReportAction.narrative (report_prompt "example.com" "identify open ports"
        (summarize_history [⟨1, Json.str "t", Json.str "ls", "ok", ""⟩, successRecord])
        (final_evidence [⟨1, Json.str "t", Json.str "ls", "ok", ""⟩, successRecord])) ∧
    final_evidence [⟨1, Json.str "t", Json.str "ls", "ok", ""⟩, successRecord] = "ok" := by
  have h := c1_evidence_selection "example.com" "identify open ports"
    [⟨1, Json.str "t", Json.str "ls", "ok", ""⟩, successRecord] (by decide) rfl
  refine ⟨h.1, ?_⟩
  have h2 := h.2.1 (by decide)
  rw [h2]
  decide

/-- Counterexample to C1 as stated: a successful mission whose penultimate
step spilled (pointer set, result one character over the threshold) embeds the
full 30001-character output as the proof-of-concept evidence in the report
prompt — not the spill-pointer note the claim promises. -/
theorem c1_poc_evidence_counterexample :
    lastCommand spilledHistory = Json.str "FINISH_SUCCESS" ∧
    spilledHistory.length = 2 ∧
    spilledRecord.result_summary ≠ "" ∧
    MAX_OUTPUT_LENGTH < spilledRecord.result.length ∧
    final_evidence spilledHistory = hugeResult ∧
    final_evidence spilledHistory ≠
      "Evidence is located in the file: output_step_1.log" ∧
    generate_report "example.com" "identify open ports" spilledHistory =
      ReportAction.narrative (report_prompt "example.com" "identify open ports"
        (summarize_history spilledHistory) hugeResult) := by
  have e : final_evidence spilledHistory =
      (if pyStrip hugeResult = "" ∧ spillSummary (spillFilename 1) ≠ "" then
        "Evidence is located in the file: " ++
          ((pySplit (spillSummary (spillFilename 1)) " ").getLastD "")
      else pyStrip hugeResult) := rfl
  have hev : final_evidence spilledHistory = hugeResult := by
    rw [e, pyStrip_hugeResult, if_neg (fun hx => hugeResult_ne_empty hx.1)]
  refine ⟨rfl, rfl, spillSummary_ne_empty (spillFilename 1), ?_, hev, ?_, ?_⟩
  · show MAX_OUTPUT_LENGTH < hugeResult.length
    rw [hugeResult_length]
    decide
  · rw [hev]
    intro h
    have hl := congrArg String.length h
    rw [hugeResult_length] at hl
    exact absurd hl (by decide)
  · rw [generate_report, if_neg ?_, hev]
    push_neg
    exact ⟨by decide, rfl, by decide⟩

end AIAgent

